import Mathlib

/-!
Shallow embedding of the default-folder resolution and folder-tree bootstrap
logic of `exchangelib/account.py` (class `Account`), together with the small
pass-through operations (`upload`, `bulk_update`, `bulk_delete`) of the same
file.  Remote calls are modelled as events appended to an explicit trace;
exceptions are modelled with `Except`.  Collaborator behaviour (the transport
layer, the `discover` function, the service call results) is passed in as
function parameters, so every theorem quantifies over collaborator behaviour.
-/

set_option autoImplicit false

/-- Well-known folder types.  The classes `Root`, `Calendar`, ...,
`RecoverableItemsDeletions` are imported by `account.py` from `folders.py`
(not part of the sources here); the spec fixes the enumeration, including the
catch-all `Other` tag for folders matching no known type. -/
inductive FolderType where
  | Root
  | Calendar
  | DeletedItems
  | Drafts
  | Inbox
  | Outbox
  | SentItems
  | JunkEmail
  | Tasks
  | Contacts
  | RecoverableItemsRoot
  | RecoverableItemsDeletions
  | Other
deriving DecidableEq

/-- A remote folder entity: `folder_id`, display `name`, the server's
`is_distinguished` flag, and its well-known-type classification (in the
source this is the folder object's Python class, `f.__class__`). -/
structure FolderNode where
  folder_id : Nat
  name : String
  is_distinguished : Bool
  ftype : FolderType
deriving DecidableEq

/-- ASCII model of Python's `str.title()` used at account.py line 118
(`folder.name.title()`): a letter is uppercased when the previous character
is not a letter, lowercased otherwise. -/
def titleCaseAux : Bool → List Char → List Char
  | _, [] => []
  | prevAlpha, c :: cs =>
    (if c.isAlpha then (if prevAlpha then c.toLower else c.toUpper) else c)
      :: titleCaseAux c.isAlpha cs

/-- Python `s.title()` on a string, ASCII semantics. -/
def titleCase (s : String) : String :=
  String.mk (titleCaseAux false s.data)

/-- Modelled from the spec: `WELLKNOWN_FOLDERS` lives in `folders.py`, which
is not among the sources; per spec §3 its values cover the fixed well-known
enumeration (every well-known type becomes a key of the pre-seeded folder
directory, `dict((m, []) for m in WELLKNOWN_FOLDERS.values())`). -/
def WELLKNOWN_TYPES : List FolderType :=
  [.Root, .Calendar, .DeletedItems, .Drafts, .Inbox, .Outbox, .SentItems,
   .JunkEmail, .Tasks, .Contacts, .RecoverableItemsRoot,
   .RecoverableItemsDeletions, .Other]

/-- The folder directory: the Python dict `self._folders`, keyed by folder
class, in key-insertion order. -/
abbrev Directory := List (FolderType × List FolderNode)

/-- Python dict lookup `d[t]` on the directory (as `Option`). -/
def dirGet (t : FolderType) : Directory → Option (List FolderNode)
  | [] => none
  | (k, v) :: es => if t = k then some v else dirGet t es

/-- The pre-seeded directory `dict((m, []) for m in WELLKNOWN_FOLDERS.values())`
(account.py line 89). -/
def emptyDirectory : Directory :=
  WELLKNOWN_TYPES.map (fun t => (t, []))

/-- One step of the population loop `self._folders[f.__class__].append(f)`
(account.py line 91): append `f` to the entry of its classified type.  In
Python a missing key would raise `KeyError`; since `emptyDirectory` carries
every `FolderType` as a key, the entry is always present, so updating the
matching entry in place is faithful. -/
def dirAppend : Directory → FolderNode → Directory
  | [], _ => []
  | (k, v) :: es, f =>
    (if k = f.ftype then (k, v ++ [f]) else (k, v)) :: dirAppend es f

/-- `self._folders` as built from the discovery working set (account.py
lines 89-91). -/
def buildDirectory (ws : List FolderNode) : Directory :=
  ws.foldl dirAppend emptyDirectory

/-- Remote folder-listing calls made by the `folders` property. -/
inductive ListEvent where
  | shallowRoot
  | shallowChildren (name : String)
  | deepRoot
deriving DecidableEq

/-- The container label tested at account.py line 82. -/
def TOIS : String := "Top of Information Store"

/-- The working-set computation of the `folders` property (account.py lines
79-88): list the root shallowly; the loop breaks at the first child named
"Top of Information Store" and takes that child's shallow children as the
working set; otherwise a deep listing of the root is used.  `shallowRoot`
is the result of `self.root.get_folders(depth=SHALLOW)`, `childrenOf` gives
`folder.get_folders(depth=SHALLOW)`, and `deepRoot` the result of
`self.root.get_folders(depth=DEEP)`. -/
def folders_discover (shallowRoot : List FolderNode)
    (childrenOf : FolderNode → List FolderNode)
    (deepRoot : List FolderNode) : List FolderNode × List ListEvent :=
  match shallowRoot.find? (fun f => f.name == TOIS) with
  | some tois => (childrenOf tois, [.shallowRoot, .shallowChildren tois.name])
  | none => (deepRoot, [.shallowRoot, .deepRoot])

/-- The cached `folders` property (account.py lines 73-92): return the cached
directory when present, else discover, classify, cache.  The second and third
components are the updated cache and the remote-listing trace. -/
def foldersProperty (shallowRoot : List FolderNode)
    (childrenOf : FolderNode → List FolderNode) (deepRoot : List FolderNode)
    (cache : Option Directory) : Directory × Option Directory × List ListEvent :=
  match cache with
  | some d => (d, some d, [])
  | none =>
    let r := folders_discover shallowRoot childrenOf deepRoot
    let d := buildDirectory r.1
    (d, some d, r.2)

/-- Outcome of `fld_class.get_distinguished(account=self)` (account.py line
98): success, or one of the two intercepted exception classes
(`ErrorAccessDenied`, `ErrorFolderNotFound`), or any other error, which
propagates unchanged.  The not-found and transport cases carry the upstream
error message. -/
inductive DistOutcome where
  | found (f : FolderNode)
  | accessDenied
  | folderNotFound (msg : String)
  | transportError (msg : String)
deriving DecidableEq

/-- Errors raised by `_get_default_folder`: the re-raised
`ErrorFolderNotFound('No useable default ... folders') from e` (carrying the
upstream cause), the `AssertionError` listing multiple candidates, and
pass-through of any other upstream error. -/
inductive ResolveError where
  | noUsableDefault (t : FolderType) (cause : String)
  | ambiguousDefault (t : FolderType) (candidates : List FolderNode)
  | transportError (msg : String)
deriving DecidableEq

/-- Remote calls made by `_get_default_folder`: the distinguished lookup, the
probe query `fld.filter(subject='DUMMY')`, and the access to `self.folders`
(the directory scan). -/
inductive REvent where
  | getDistinguished (t : FolderType)
  | probeQuery (t : FolderType)
  | foldersAccess
deriving DecidableEq

/-- Environment of `_get_default_folder`: the behaviour of the distinguished
lookup per type, the (already computed) folder directory `self.folders` per
type, the account locale, and the localized-name table.  `localizedNames t l`
is `fld_class.LOCALIZED_NAMES.get(l, [])` for the class of `t` (the table
data lives in `folders.py`, outside the sources, so it is a parameter). -/
structure ResolverEnv where
  distOutcome : FolderType → DistOutcome
  directory : FolderType → List FolderNode
  locale : String
  localizedNames : FolderType → String → List String

/-- The localized-name filter of account.py lines 110-119: candidates of the
requested type whose title-cased display name occurs in the locale's entry
of the localization table. -/
def locMatches (env : ResolverEnv) (t : FolderType) : List FolderNode :=
  (env.directory t).filter
    (fun f => (env.localizedNames t env.locale).contains (titleCase f.name))

/-- The distinguished-flag filter of account.py lines 120-124: candidates of
the requested type whose `is_distinguished` flag is set. -/
def distMatches (env : ResolverEnv) (t : FolderType) : List FolderNode :=
  (env.directory t).filter (fun f => f.is_distinguished)

/-- The surviving candidates of the not-found fallback scan: the localized
matches, or, when there are none, the distinguished-flagged matches
(account.py lines 109-124). -/
def scanCandidates (env : ResolverEnv) (t : FolderType) : List FolderNode :=
  if (locMatches env t).isEmpty then distMatches env t else locMatches env t

/-- The lightweight handle `fld = fld_class(self)` constructed on the
access-denied path (account.py line 102): a fresh folder object of the
requested class, with no server-supplied id, name or flag. -/
def lightweightHandle (t : FolderType) : FolderNode :=
  ⟨0, "", false, t⟩

/-- `Account._get_default_folder` (account.py lines 94-129).  Tier 1: the
distinguished lookup; on success its folder is returned.  On
`ErrorAccessDenied`: construct a lightweight handle, issue the probe query,
return the handle.  On `ErrorFolderNotFound`: scan `self.folders[fld_class]`
through the localized-name filter, then (only when that yields nothing) the
distinguished-flag filter; zero survivors raise `noUsableDefault` carrying
the upstream cause, one survivor is returned, several raise the
`AssertionError` (`ambiguousDefault`) listing all survivors.  Any other
upstream error propagates unchanged. -/
def getDefaultFolder (env : ResolverEnv) (t : FolderType) :
    Except ResolveError FolderNode × List REvent :=
  match env.distOutcome t with
  | .found f => (.ok f, [.getDistinguished t])
  | .accessDenied =>
    (.ok (lightweightHandle t), [.getDistinguished t, .probeQuery t])
  | .folderNotFound msg =>
    match scanCandidates env t with
    | [] => (.error (.noUsableDefault t msg), [.getDistinguished t, .foldersAccess])
    | [f] => (.ok f, [.getDistinguished t, .foldersAccess])
    | f :: g :: rest =>
      (.error (.ambiguousDefault t (f :: g :: rest)),
       [.getDistinguished t, .foldersAccess])
  | .transportError m => (.error (.transportError m), [.getDistinguished t])

/-- Write-through of the per-type default-folder cache (the assignment
`self._inbox = self._get_default_folder(Inbox)` and its ten siblings). -/
def setCache (cache : FolderType → Option FolderNode) (t : FolderType)
    (f : FolderNode) : FolderType → Option FolderNode :=
  fun u => if u = t then some f else cache u

/-- The cached default-folder accessor pattern shared by the eleven
properties `calendar`, `trash`, `drafts`, `inbox`, `outbox`, `sent`, `junk`,
`tasks`, `contacts`, `recoverable_items_root`, `recoverable_deleted_items`
(account.py lines 131-209): return the cached instance when the private
attribute is set; otherwise resolve, store on success (a raised error leaves
the attribute unset), and return. -/
def defaultFolderAccess (env : ResolverEnv) (t : FolderType)
    (cache : FolderType → Option FolderNode) :
    Except ResolveError FolderNode × (FolderType → Option FolderNode) × List REvent :=
  match cache t with
  | some f => (.ok f, cache, [])
  | none =>
    match getDefaultFolder env t with
    | (.ok f, evs) => (.ok f, setCache cache t f, evs)
    | (.error e, evs) => (.error e, cache, evs)

/-- Delegate vs impersonation access (`credentials.py`, imported constants). -/
inductive AccessType where
  | DELEGATE
  | IMPERSONATION
deriving DecidableEq

/-- Opaque credentials object; only its presence matters to `Account.__init__`. -/
structure Credentials where
  username : String
  password : String
deriving DecidableEq

/-- The protocol handle; `Account.__init__` reads `config.protocol` and
`protocol.version`. -/
structure Protocol where
  version : Nat
deriving DecidableEq

/-- The injected configuration object, owning a protocol handle. -/
structure Config where
  protocol : Protocol
deriving DecidableEq

/-- Network calls made during `Account.__init__`: the `discover(...)`
autodiscover round-trip (line 36) and `Root.get_distinguished(account=self)`
(line 47). -/
inductive NetEvent where
  | discoverCall (email : String)
  | getDistinguishedRoot
deriving DecidableEq

/-- Construction-time errors of `Account.__init__`: the `ValueError` for a
malformed address (line 26) and the three `AttributeError`s (lines 35, 39,
42); `configIgnoredWithAutodiscover` is the source's wording of the spec's
`ConfigurationConflict`. -/
inductive InitError where
  | invalidAddress (addr : String)
  | autodiscoverRequiresCredentials
  | configIgnoredWithAutodiscover
  | nonAutodiscoverRequiresConfig
deriving DecidableEq

/-- The account fields set by a successful `Account.__init__` that the claims
mention. -/
structure AccountResult where
  primary_smtp_address : String
  fullname : Option String
  access_type : AccessType
  protocol : Protocol
  version : Nat
deriving DecidableEq

/-- `Account.__init__` (account.py lines 23-50), with the network trace made
explicit.  `df` is the collaborator `discover(email=..., credentials=...,
verify_ssl=...)`, returning the (possibly rewritten) primary address and a
protocol handle.  Order of operations follows the source: address check,
access-type default, then, under `autodiscover`, the credentials check, the
`discover` network call, and only afterwards the check rejecting a supplied
`config`; without `autodiscover`, the config check; finally the
`Root.get_distinguished` call. -/
def accountInit (df : String → String × Protocol) (primary : String)
    (fullname : Option String) (access_type : Option AccessType)
    (autodiscover : Bool) (credentials : Option Credentials)
    (config : Option Config) :
    List NetEvent × Except InitError AccountResult :=
  if primary.data.contains (Char.ofNat 64) = false then
    ([], .error (.invalidAddress primary))
  else
    let aty := access_type.getD
      (if credentials.isSome then .DELEGATE else .IMPERSONATION)
    if autodiscover then
      match credentials with
      | none => ([], .error .autodiscoverRequiresCredentials)
      | some _ =>
        let r := df primary
        match config with
        | some _ =>
          ([.discoverCall primary], .error .configIgnoredWithAutodiscover)
        | none =>
          ([.discoverCall primary, .getDistinguishedRoot],
           .ok ⟨r.1, fullname, aty, r.2, r.2.version⟩)
    else
      match config with
      | none => ([], .error .nonAutodiscoverRequiresConfig)
      | some cfg =>
        ([.getDistinguishedRoot],
         .ok ⟨primary, fullname, aty, cfg.protocol, cfg.protocol.version⟩)

/-- Modelled from the spec: `peek` lives in `util.py`, which is not among the
sources; per spec §4.3 it detects whether the input sequence is provably
empty and hands back the sequence for consumption. -/
def peek {α : Type} (xs : List α) : Bool × List α :=
  (xs.isEmpty, xs)

/-- The remote item-service calls made by the bulk operations
(`UpdateItem(...).call` and `DeleteItem(...).call`). -/
inductive BulkEvent where
  | updateItemCall
  | deleteItemCall
deriving DecidableEq

/-- The enumerated-choice sets validated by the bulk operations; their
contents live in `folders.py`, outside the sources, so they are parameters. -/
structure BulkChoiceSets where
  CONFLICT_RESOLUTION_CHOICES : List String
  MESSAGE_DISPOSITION_CHOICES : List String
  SEND_MEETING_INVITATIONS_AND_CANCELLATIONS_CHOICES : List String
  DELETE_TYPE_CHOICES : List String
  SEND_MEETING_CANCELLATIONS_CHOICES : List String
  AFFECTED_TASK_OCCURRENCES_CHOICES : List String

/-- The `AssertionError` raised by a failed enumerated-option assertion. -/
inductive BulkError where
  | assertFailed
deriving DecidableEq

/-- `Account.bulk_update` (account.py lines 215-252): assert the three
enumerated options against their choice sets, peek at the input, return `[]`
immediately when it is empty, otherwise call `UpdateItem(...).call` and map
the results.  `svc` is the collaborator call composed with
`Item.id_from_xml`; `α` the item/changes type, `β` the returned id type. -/
def bulk_update {α β : Type} (cs : BulkChoiceSets) (svc : List α → List β)
    (conflict_resolution message_disposition
      send_meeting_invitations_or_cancellations : String)
    (items : List α) : Except BulkError (List BulkEvent × List β) :=
  if cs.CONFLICT_RESOLUTION_CHOICES.contains conflict_resolution = false then
    .error .assertFailed
  else if cs.MESSAGE_DISPOSITION_CHOICES.contains message_disposition = false then
    .error .assertFailed
  else if cs.SEND_MEETING_INVITATIONS_AND_CANCELLATIONS_CHOICES.contains
      send_meeting_invitations_or_cancellations = false then
    .error .assertFailed
  else
    let p := peek items
    if p.1 then .ok ([], [])
    else .ok ([.updateItemCall], svc p.2)

/-- `Account.bulk_delete` (account.py lines 254-285): same shape as
`bulk_update` with the delete-specific options and `DeleteItem(...).call`. -/
def bulk_delete {α β : Type} (cs : BulkChoiceSets) (svc : List α → List β)
    (delete_type send_meeting_cancellations affected_task_occurrences : String)
    (ids : List α) : Except BulkError (List BulkEvent × List β) :=
  if cs.DELETE_TYPE_CHOICES.contains delete_type = false then
    .error .assertFailed
  else if cs.SEND_MEETING_CANCELLATIONS_CHOICES.contains
      send_meeting_cancellations = false then
    .error .assertFailed
  else if cs.AFFECTED_TASK_OCCURRENCES_CHOICES.contains
      affected_task_occurrences = false then
    .error .assertFailed
  else
    let p := peek ids
    if p.1 then .ok ([], [])
    else .ok ([.deleteItemCall], svc p.2)

/-- The `folders` argument of `Account.upload`: Python permits `None`, a
single (non-iterable) folder object, or an iterable of folders. -/
inductive FoldersArg where
  | noneArg
  | single (f : FolderNode)
  | many (fs : List FolderNode)
deriving DecidableEq

/-- A payload handed to `UploadItems(self.protocol).call(self, ...)`: either
the raw data sequence or the merged (folder, data) pairs. -/
inductive UploadPayload where
  | raw (data : List String)
  | merged (pairs : List (Option FolderNode × String))
deriving DecidableEq

/-- The returned `ItemId(id=..., changekey=...)` objects. -/
structure ItemId where
  id : String
  changekey : String
deriving DecidableEq

/-- The generator expression `((folder, data_str) for folder, data_str in
zip(folders, data))` of account.py line 62.  Python evaluates
`zip(folders, data)` eagerly when the generator is created, so a
non-iterable `folders` (`None` or a single folder object) raises `TypeError`
right there (`none` here); an iterable `folders` zips. -/
def tryZipFolders : FoldersArg → List String →
    Option (List (Option FolderNode × String))
  | .noneArg, _ => none
  | .single _, _ => none
  | .many fs, data => some ((fs.map some).zip data)

/-- The `except TypeError` fallback of account.py line 66: pair the raw
`folders` value itself with every data element.  (Unreachable for an
iterable `folders`.) -/
def fallbackMerge : FoldersArg → List String →
    List (Option FolderNode × String)
  | .noneArg, data => data.map (fun d => (none, d))
  | .single f, data => data.map (fun d => (some f, d))
  | .many fs, data => (fs.map some).zip data

/-- `Account.upload` (account.py lines 55-71), with the service-call trace
made explicit.  When `folders` is `None` the first branch already calls the
upload service on the raw data; the subsequent `zip(None, data)` raises
`TypeError`, so a second call is made with every data element paired with
`None` and `upload_ids` is rebound to that second result.  In every case the
returned `ItemId`s are built from the last call's result.  `svc` is the
collaborator `UploadItems(self.protocol).call`, returning
(item_id, changekey) pairs. -/
def upload (svc : UploadPayload → List (String × String))
    (data : List String) (folders : FoldersArg) :
    List UploadPayload × List ItemId :=
  let firstCalls : List UploadPayload :=
    match folders with
    | .noneArg => [.raw data]
    | _ => []
  let pairs : List (Option FolderNode × String) :=
    match tryZipFolders folders data with
    | some ps => ps
    | none => fallbackMerge folders data
  let merged := UploadPayload.merged pairs
  (firstCalls ++ [merged], (svc merged).map (fun p => ⟨p.1, p.2⟩))

/-- Sample protocol handle for concrete instances. -/
def proto0 : Protocol := ⟨1⟩

/-- Sample injected configuration. -/
def cfg0 : Config := ⟨proto0⟩

/-- Sample credentials. -/
def cred0 : Credentials := ⟨"user", "secret"⟩

/-- Sample autodiscover collaborator: returns the address unchanged and the
sample protocol. -/
def df0 : String → String × Protocol := fun s => (s, proto0)

/-- Sample inbox-typed folder with a Danish (lower-cased) display name. -/
def inboxA : FolderNode := ⟨1, "indbakke", false, .Inbox⟩

/-- Sample inbox-typed folder, distinguished, German display name. -/
def inboxB : FolderNode := ⟨2, "Posteingang", true, .Inbox⟩

/-- Sample container folder named "Top of Information Store". -/
def toisF : FolderNode := ⟨7, "Top of Information Store", false, .Other⟩

/-- Sample unclassified folder. -/
def miscF : FolderNode := ⟨9, "Misc", false, .Other⟩

/-- Sample child-listing collaborator: every folder has `[inboxA]` as
children. -/
def childrenOf0 : FolderNode → List FolderNode := fun _ => [inboxA]

/-- Builder for concrete resolver environments: a fixed distinguished-lookup
outcome, a fixed per-type candidate list, locale `da_DK` (the source's
default), and a fixed localized-name entry. -/
def mkEnv (outcome : DistOutcome) (dir : List FolderNode)
    (names : List String) : ResolverEnv :=
  ⟨fun _ => outcome, fun _ => dir, "da_DK", fun _ _ => names⟩

/-- Environment in which two inbox candidates both match the locale table. -/
def env2 : ResolverEnv :=
  mkEnv (.folderNotFound "nf") [inboxA, inboxB] ["Indbakke", "Posteingang"]

/-- Environment in which exactly one inbox candidate matches the locale
table (after title-casing "indbakke"). -/
def env3 : ResolverEnv :=
  mkEnv (.folderNotFound "nf") [inboxA, inboxB] ["Indbakke"]

/-- Environment whose distinguished lookup is denied. -/
def env4 : ResolverEnv := mkEnv .accessDenied [inboxA] ["Indbakke"]

/-- Environment with no localized and no distinguished candidates. -/
def env5 : ResolverEnv := mkEnv (.folderNotFound "no such folder") [inboxA] []

/-- Environment whose distinguished lookup succeeds with `inboxB`. -/
def env8 : ResolverEnv := mkEnv (.found inboxB) [] []

/-- The default-folder cache after a first successful inbox resolution. -/
def c8cache : FolderType → Option FolderNode :=
  setCache (fun _ => none) .Inbox inboxB

/-- The directory after a first discovery over the sample tree. -/
def c8dir : Directory := buildDirectory [inboxA]

/-- Sample enumerated-choice sets for the bulk operations. -/
def cs0 : BulkChoiceSets :=
  ⟨["AutoResolve"], ["SaveOnly"], ["SendToNone"], ["HardDelete"],
   ["SendToNone"], ["SpecifiedOccurrenceOnly"]⟩

/-- Sample bulk service collaborator. -/
def usvc0 : List Nat → List Nat := fun xs => xs

/-- Helper: looking a type up after one `dirAppend` step appends the folder
to the entry of its own type and leaves every other entry unchanged. -/
theorem dirGet_dirAppend (d : Directory) (f : FolderNode) (t : FolderType) :
    dirGet t (dirAppend d f) =
      (dirGet t d).map (fun l => if t = f.ftype then l ++ [f] else l) := by
  induction d with
  | nil => rfl
  | cons p d ih =>
    obtain ⟨a, l⟩ := p
    simp only [dirAppend]
    by_cases h2 : a = f.ftype
    · rw [if_pos h2]
      by_cases h : t = a
      · subst h
        simp [dirGet, h2]
      · simp [dirGet, h, ih]
    · rw [if_neg h2]
      by_cases h : t = a
      · subst h
        simp [dirGet, h2]
      · simp [dirGet, h, ih]

/-- Helper: folding the population loop over a working set appends, per
type, exactly the working-set folders of that type, in order. -/
theorem dirGet_foldl (ws : List FolderNode) (d : Directory) (t : FolderType) :
    dirGet t (ws.foldl dirAppend d) =
      (dirGet t d).map (fun l => l ++ ws.filter (fun f => f.ftype == t)) := by
  induction ws generalizing d with
  | nil => cases hd : dirGet t d <;> simp [hd]
  | cons f ws ih =>
    rw [List.foldl_cons, ih, dirGet_dirAppend]
    cases hd : dirGet t d with
    | none => simp
    | some l =>
      by_cases h : f.ftype = t
      · subst h
        simp [List.filter_cons]
      · simp [List.filter_cons, h, Ne.symm h]

/-- Helper: the pre-seeded directory has every folder type as a key, mapped
to the empty sequence. -/
theorem dirGet_emptyDirectory (t : FolderType) :
    dirGet t emptyDirectory = some [] := by
  cases t <;> rfl

/-- C7: the folder directory built by discovery always contains every
well-known folder type as a key (`dirGet` returns `some`, possibly of the
empty list, for every `FolderType`, including `Other`), and the entry for
each type is exactly the working-set folders classified to it, in discovery
order. -/
theorem directory_complete_and_ordered (ws : List FolderNode) (t : FolderType) :
    dirGet t (buildDirectory ws) = some (ws.filter (fun f => f.ftype == t)) := by
  rw [buildDirectory, dirGet_foldl, dirGet_emptyDirectory]
  simp

/-- C6: when the shallow root listing contains a folder named "Top of
Information Store", the working set is the shallow listing of that folder's
children and the deep listing of the root is never requested; when it does
not, the working set is the deep listing of the root. -/
theorem tois_shallow_else_deep (sr : List FolderNode)
    (co : FolderNode → List FolderNode) (dr : List FolderNode) :
    (∀ tois, sr.find? (fun f => f.name == TOIS) = some tois →
      folders_discover sr co dr =
        (co tois, [.shallowRoot, .shallowChildren tois.name]) ∧
      ListEvent.deepRoot ∉ (folders_discover sr co dr).2) ∧
    (sr.find? (fun f => f.name == TOIS) = none →
      folders_discover sr co dr = (dr, [.shallowRoot, .deepRoot])) := by
  constructor
  · intro tois h
    constructor
    · simp [folders_discover, h]
    · simp [folders_discover, h]
  · intro h
    simp [folders_discover, h]

/-- C6 witness: at a concrete root containing the container folder, the
working set is its children and no deep listing occurs; at a concrete root
without it, the deep listing is the working set. -/
theorem tois_shallow_else_deep_witness :
    (folders_discover [toisF] childrenOf0 [miscF] =
      (childrenOf0 toisF, [.shallowRoot, .shallowChildren toisF.name]) ∧
     ListEvent.deepRoot ∉ (folders_discover [toisF] childrenOf0 [miscF]).2) ∧
    folders_discover [miscF] childrenOf0 [miscF] =
      ([miscF], [.shallowRoot, .deepRoot]) :=
  ⟨(tois_shallow_else_deep [toisF] childrenOf0 [miscF]).1 toisF (by decide),
   (tois_shallow_else_deep [miscF] childrenOf0 [miscF]).2 (by decide)⟩

/-- C10: `upload` with `folders=None` invokes the upload service twice —
first on the raw data sequence, then (after `zip(None, data)` raises
`TypeError`) on the data elements each paired with `None` — and the returned
`ItemId`s are built from the second call's result only; the first call's
result never reaches the returned value. -/
theorem upload_none_double_call (svc : UploadPayload → List (String × String))
    (data : List String) :
    upload svc data .noneArg =
      ([.raw data, .merged (data.map (fun d => (none, d)))],
       (svc (.merged (data.map (fun d => (none, d))))).map
         (fun p => ⟨p.1, p.2⟩)) := by
  rfl

/-- C9: with validly enumerated options, `bulk_update` and `bulk_delete` on
an empty input sequence return an empty result and make no remote call (the
event trace is empty). -/
theorem bulk_empty_no_remote_call {α β γ δ : Type} (cs : BulkChoiceSets)
    (usvc : List α → List β) (dsvc : List γ → List δ)
    (cr md smioc dt smc ato : String)
    (h1 : cr ∈ cs.CONFLICT_RESOLUTION_CHOICES)
    (h2 : md ∈ cs.MESSAGE_DISPOSITION_CHOICES)
    (h3 : smioc ∈ cs.SEND_MEETING_INVITATIONS_AND_CANCELLATIONS_CHOICES)
    (h4 : dt ∈ cs.DELETE_TYPE_CHOICES)
    (h5 : smc ∈ cs.SEND_MEETING_CANCELLATIONS_CHOICES)
    (h6 : ato ∈ cs.AFFECTED_TASK_OCCURRENCES_CHOICES) :
    bulk_update cs usvc cr md smioc ([] : List α) = .ok ([], []) ∧
    bulk_delete cs dsvc dt smc ato ([] : List γ) = .ok ([], []) := by
  constructor <;>
    simp [bulk_update, bulk_delete, h1, h2, h3, h4, h5, h6, peek]

/-- C9 witness: concrete choice sets, options and collaborators. -/
theorem bulk_empty_no_remote_call_witness :
    bulk_update cs0 usvc0 "AutoResolve" "SaveOnly" "SendToNone"
      ([] : List Nat) = .ok ([], []) ∧
    bulk_delete cs0 usvc0 "HardDelete" "SendToNone" "SpecifiedOccurrenceOnly"
      ([] : List Nat) = .ok ([], []) :=
  bulk_empty_no_remote_call cs0 usvc0 usvc0 "AutoResolve" "SaveOnly"
    "SendToNone" "HardDelete" "SendToNone" "SpecifiedOccurrenceOnly"
    (by decide) (by decide) (by decide) (by decide) (by decide) (by decide)

/-- C2: when the distinguished lookup fails with folder-not-found and the
fallback scan leaves more than one surviving candidate (the localized
matches, or the distinguished-flagged matches when there is no localized
match), resolution fails with the ambiguity error carrying exactly the list
of surviving candidates — it never returns one of them. -/
theorem ambiguous_scan_never_guesses (env : ResolverEnv) (t : FolderType)
    (msg : String) (h : env.distOutcome t = .folderNotFound msg)
    (h2 : 2 ≤ (scanCandidates env t).length) :
    getDefaultFolder env t =
      (.error (.ambiguousDefault t (scanCandidates env t)),
       [.getDistinguished t, .foldersAccess]) := by
  rcases hc : scanCandidates env t with _ | ⟨f, _ | ⟨g, rest⟩⟩
  · rw [hc] at h2
    simp at h2
  · rw [hc] at h2
    simp at h2
  · simp [getDefaultFolder, h, hc]

/-- C2 witness: two inbox folders both matching the Danish locale table make
resolution fail with the ambiguity error listing both. -/
theorem ambiguous_scan_never_guesses_witness :
    getDefaultFolder env2 .Inbox =
      (.error (.ambiguousDefault .Inbox (scanCandidates env2 .Inbox)),
       [.getDistinguished .Inbox, .foldersAccess]) ∧
    scanCandidates env2 .Inbox = [inboxA, inboxB] :=
  ⟨ambiguous_scan_never_guesses env2 .Inbox "nf" (by decide) (by decide),
   by decide⟩

/-- C3: when the distinguished lookup fails with folder-not-found and the
localized-name filter (title-cased display name occurring in the locale's
table entry) leaves exactly one candidate, resolution returns that
candidate. -/
theorem unique_localized_match_returned (env : ResolverEnv) (t : FolderType)
    (msg : String) (f : FolderNode)
    (h : env.distOutcome t = .folderNotFound msg)
    (h2 : locMatches env t = [f]) :
    getDefaultFolder env t = (.ok f, [.getDistinguished t, .foldersAccess]) := by
  have hc : scanCandidates env t = [f] := by
    simp [scanCandidates, h2]
  simp [getDefaultFolder, h, hc]

/-- C3 witness: of two inbox folders only "indbakke" title-cases into the
locale entry, and that folder is returned. -/
theorem unique_localized_match_returned_witness :
    getDefaultFolder env3 .Inbox =
      (.ok inboxA, [.getDistinguished .Inbox, .foldersAccess]) :=
  unique_localized_match_returned env3 .Inbox "nf" inboxA (by decide) (by decide)

/-- C4: when the distinguished lookup fails with access-denied, resolution
returns the lightweight handle for the requested type after the probe query,
and the trace shows no access to the folder directory (no child-folder
listing is triggered on this path). -/
theorem access_denied_probe_no_scan (env : ResolverEnv) (t : FolderType)
    (h : env.distOutcome t = .accessDenied) :
    getDefaultFolder env t =
      (.ok (lightweightHandle t), [.getDistinguished t, .probeQuery t]) ∧
    REvent.foldersAccess ∉ (getDefaultFolder env t).2 := by
  constructor
  · simp [getDefaultFolder, h]
  · simp [getDefaultFolder, h]

/-- C4 witness: a concrete denied environment takes the probe path. -/
theorem access_denied_probe_no_scan_witness :
    getDefaultFolder env4 .Inbox =
      (.ok (lightweightHandle .Inbox),
       [.getDistinguished .Inbox, .probeQuery .Inbox]) ∧
    REvent.foldersAccess ∉ (getDefaultFolder env4 .Inbox).2 :=
  access_denied_probe_no_scan env4 .Inbox (by decide)

/-- C5: when the distinguished lookup fails with folder-not-found and both
the localized-name filter and the distinguished-flag filter leave zero
candidates, resolution fails with the no-usable-default error carrying the
upstream not-found message as its cause. -/
theorem no_candidates_error_with_cause (env : ResolverEnv) (t : FolderType)
    (msg : String) (h : env.distOutcome t = .folderNotFound msg)
    (hl : locMatches env t = []) (hd : distMatches env t = []) :
    getDefaultFolder env t =
      (.error (.noUsableDefault t msg),
       [.getDistinguished t, .foldersAccess]) := by
  have hc : scanCandidates env t = [] := by
    simp [scanCandidates, hl, hd]
  simp [getDefaultFolder, h, hc]

/-- C5 witness: a lone non-distinguished, non-matching inbox candidate
leaves both filters empty; the error carries the upstream message. -/
theorem no_candidates_error_with_cause_witness :
    getDefaultFolder env5 .Inbox =
      (.error (.noUsableDefault .Inbox "no such folder"),
       [.getDistinguished .Inbox, .foldersAccess]) :=
  no_candidates_error_with_cause env5 .Inbox "no such folder"
    (by decide) (by decide) (by decide)

/-- C8: once a default-folder accessor has resolved successfully, a second
access returns the identical cached folder, leaves the cache unchanged and
makes no remote call; likewise, once the folder directory has been computed,
a second access to the `folders` property returns the identical directory
with no remote listing call. -/
theorem resolve_and_directory_memoized (env : ResolverEnv) (t : FolderType)
    (cache : FolderType → Option FolderNode) (f : FolderNode)
    (c2 : FolderType → Option FolderNode) (evs : List REvent)
    (h : defaultFolderAccess env t cache = (.ok f, c2, evs))
    (sr : List FolderNode) (co : FolderNode → List FolderNode)
    (dr : List FolderNode) (dcache : Option Directory) (d : Directory)
    (dc2 : Option Directory) (devs : List ListEvent)
    (h2 : foldersProperty sr co dr dcache = (d, dc2, devs)) :
    defaultFolderAccess env t c2 = (.ok f, c2, []) ∧
    foldersProperty sr co dr dc2 = (d, dc2, []) := by
  constructor
  · cases hct : cache t with
    | some g =>
      simp only [defaultFolderAccess, hct, Prod.mk.injEq,
        Except.ok.injEq] at h
      obtain ⟨hf, hc, he⟩ := h
      subst hf
      subst hc
      simp only [defaultFolderAccess, hct]
    | none =>
      rcases hres : getDefaultFolder env t with ⟨r, evs0⟩
      cases r with
      | ok g =>
        simp only [defaultFolderAccess, hct, hres, Prod.mk.injEq,
          Except.ok.injEq] at h
        obtain ⟨hf, hc, he⟩ := h
        subst hf
        subst hc
        have hcc : setCache cache t g t = some g := by
          simp [setCache]
        simp only [defaultFolderAccess, hcc]
      | error e =>
        simp only [defaultFolderAccess, hct, hres] at h
        simp at h
  · cases hdc : dcache with
    | some d0 =>
      simp only [foldersProperty, hdc, Prod.mk.injEq] at h2
      obtain ⟨hd, hdc2, hdevs⟩ := h2
      subst hd
      subst hdc2
      simp only [foldersProperty]
    | none =>
      simp only [foldersProperty, hdc, Prod.mk.injEq] at h2
      obtain ⟨hd, hdc2, hdevs⟩ := h2
      subst hd
      subst hdc2
      simp only [foldersProperty]

/-- C8 witness: a first inbox resolution against a successful distinguished
lookup fills the cache; the second access returns the same folder with an
empty trace, and the cached directory is returned unchanged with an empty
trace. -/
theorem resolve_and_directory_memoized_witness :
    defaultFolderAccess env8 .Inbox c8cache = (.ok inboxB, c8cache, []) ∧
    foldersProperty [toisF] childrenOf0 [] (some c8dir) =
      (c8dir, some c8dir, []) :=
  resolve_and_directory_memoized env8 .Inbox (fun _ => none) inboxB c8cache
    [.getDistinguished .Inbox] rfl [toisF] childrenOf0 [] (some c8dir)
    c8dir (some c8dir) [] rfl

/-- C1 counterexample: constructing with `autodiscover=True`, credentials
and an explicit `config` does fail with the configuration-conflict error
(`AttributeError: config is ignored when autodiscover is active`), but the
`discover` network round-trip has already been made when the error is
raised: the network trace at the moment of failure is nonempty, refuting
"this failure occurs before any network access". -/
theorem autodiscover_conflict_after_network :
    (accountInit df0 "user@example.com" none none true (some cred0)
      (some cfg0)).2 = .error .configIgnoredWithAutodiscover ∧
    (accountInit df0 "user@example.com" none none true (some cred0)
      (some cfg0)).1 = [.discoverCall "user@example.com"] ∧
    (accountInit df0 "user@example.com" none none true (some cred0)
      (some cfg0)).1 ≠ [] := by
  refine ⟨by rfl, by rfl, by decide⟩

/-- C1 amended: for every construction with a valid address in which both
the discovery flag and an explicit configuration are supplied: with
credentials, construction fails with the configuration-conflict error and
exactly one network call — the autodiscover round-trip — precedes the
error; without credentials, construction fails earlier, with the
credentials-required error, before any network access (empty trace). -/
theorem autodiscover_with_config_conflict (df : String → String × Protocol)
    (primary : String) (fullname : Option String)
    (aty : Option AccessType) (cfg : Config)
    (h : Char.ofNat 64 ∈ primary.data) :
    (∀ cred : Credentials,
      accountInit df primary fullname aty true (some cred) (some cfg) =
        ([.discoverCall primary], .error .configIgnoredWithAutodiscover)) ∧
    accountInit df primary fullname aty true none (some cfg) =
      ([], .error .autodiscoverRequiresCredentials) := by
  constructor
  · intro cred
    simp [accountInit, h]
  · simp [accountInit, h]

/-- C1 amended witness: the concrete conflicting construction, with and
without credentials. -/
theorem autodiscover_with_config_conflict_witness :
    accountInit df0 "user@example.com" none none true (some cred0)
      (some cfg0) =
      ([.discoverCall "user@example.com"],
       .error .configIgnoredWithAutodiscover) ∧
    accountInit df0 "user@example.com" none none true none (some cfg0) =
      ([], .error .autodiscoverRequiresCredentials) :=
  ⟨(autodiscover_with_config_conflict df0 "user@example.com" none none
      cfg0 (by decide)).1 cred0,
   (autodiscover_with_config_conflict df0 "user@example.com" none none
      cfg0 (by decide)).2⟩
